import Mathlib

/-!
Verification of `analytics.js` (getcord/analytics-script).

The script fetches paginated resource collections over HTTP, reduces them
to per-application metric rows, and renders a CSV string.  We embed the
dynamically-typed JavaScript values as the inductive `JsValue`, embed each
function of the source as a Lean function over `JsValue` (network responses
become explicit lists of scripted responses), and prove the claimed
properties about those embeddings.
-/

/-- A JavaScript runtime value, as far as `analytics.js` inspects them:
`null`, booleans, numbers (the script only ever adds and counts, so we use
`Int`), strings, arrays and plain objects (association lists in property
insertion order). -/
inductive JsValue where
  | null
  | bool (b : Bool)
  | num (n : Int)
  | str (s : String)
  | arr (elems : List JsValue)
  | obj (fields : List (String × JsValue))
  deriving Repr

mutual

/-- Structural equality test on `JsValue` (JS `===` restricted to the value
     shapes above; the script only compares primitives, where `===` is value
     equality). -/
def JsValue.beq : JsValue → JsValue → Bool
  | .null, .null => true
  | .bool x, .bool y => x == y
  | .num x, .num y => x == y
  | .str x, .str y => x == y
  | .arr xs, .arr ys => JsValue.beqList xs ys
  | .obj xs, .obj ys => JsValue.beqFields xs ys
  | _, _ => false
termination_by structural a => a

def JsValue.beqList : List JsValue → List JsValue → Bool
  | [], [] => true
  | x :: xs, y :: ys => JsValue.beq x y && JsValue.beqList xs ys
  | _, _ => false
termination_by structural a => a

def JsValue.beqFields : List (String × JsValue) → List (String × JsValue) → Bool
  | [], [] => true
  | (k1, v1) :: xs, (k2, v2) :: ys =>
      k1 == k2 && JsValue.beq v1 v2 && JsValue.beqFields xs ys
  | _, _ => false
termination_by structural a => a

end

mutual

theorem JsValue.eq_of_beq : {a b : JsValue} → JsValue.beq a b = true → a = b
  | .null, .null, _ => rfl
  | .bool x, .bool y, h => by simp only [JsValue.beq, beq_iff_eq] at h; rw [h]
  | .num x, .num y, h => by simp only [JsValue.beq, beq_iff_eq] at h; rw [h]
  | .str x, .str y, h => by simp only [JsValue.beq, beq_iff_eq] at h; rw [h]
  | .arr xs, .arr ys, h => by
      rw [JsValue.eqList_of_beqList (a := xs) (b := ys) (by simpa [JsValue.beq] using h)]
  | .obj xs, .obj ys, h => by
      rw [JsValue.eqFields_of_beqFields (a := xs) (b := ys) (by simpa [JsValue.beq] using h)]
termination_by structural a => a

theorem JsValue.eqList_of_beqList : {a b : List JsValue} → JsValue.beqList a b = true → a = b
  | [], [], _ => rfl
  | x :: xs, y :: ys, h => by
      simp only [JsValue.beqList, Bool.and_eq_true] at h
      rw [JsValue.eq_of_beq h.1, JsValue.eqList_of_beqList h.2]
termination_by structural a => a

theorem JsValue.eqFields_of_beqFields :
    {a b : List (String × JsValue)} → JsValue.beqFields a b = true → a = b
  | [], [], _ => rfl
  | (k1, v1) :: xs, (k2, v2) :: ys, h => by
      simp only [JsValue.beqFields, Bool.and_eq_true, beq_iff_eq] at h
      rw [h.1.1, JsValue.eq_of_beq h.1.2, JsValue.eqFields_of_beqFields h.2]
termination_by structural a => a

end

mutual

theorem JsValue.beq_refl : (a : JsValue) → JsValue.beq a a = true
  | .null => rfl
  | .bool x => by simp [JsValue.beq]
  | .num x => by simp [JsValue.beq]
  | .str x => by simp [JsValue.beq]
  | .arr xs => by simpa [JsValue.beq] using JsValue.beqList_refl xs
  | .obj xs => by simpa [JsValue.beq] using JsValue.beqFields_refl xs
termination_by structural a => a

theorem JsValue.beqList_refl : (a : List JsValue) → JsValue.beqList a a = true
  | [] => rfl
  | x :: xs => by
      simp only [JsValue.beqList, Bool.and_eq_true]
      exact ⟨JsValue.beq_refl x, JsValue.beqList_refl xs⟩
termination_by structural a => a

theorem JsValue.beqFields_refl : (a : List (String × JsValue)) → JsValue.beqFields a a = true
  | [] => rfl
  | (k, v) :: xs => by
      simp only [JsValue.beqFields, Bool.and_eq_true, beq_iff_eq]
      exact ⟨⟨trivial, JsValue.beq_refl v⟩, JsValue.beqFields_refl xs⟩
termination_by structural a => a

end

instance : DecidableEq JsValue := fun a b =>
  if h : JsValue.beq a b = true then
    isTrue (JsValue.eq_of_beq h)
  else
    isFalse (fun he => h (he ▸ JsValue.beq_refl a))

/-- JS truthiness of a value (`if (v)`).  `NaN` never arises in the source's
truthiness tests, so `num` truthiness is just nonzero-ness. -/
def JsValue.truthy : JsValue → Bool
  | .null => false
  | .bool b => b
  | .num n => n != 0
  | .str s => s ≠ ""
  | .arr _ => true
  | .obj _ => true

/-- JS `typeof v === "object"`: true for `null`, arrays and objects. -/
def JsValue.typeofObject : JsValue → Bool
  | .null => true
  | .arr _ => true
  | .obj _ => true
  | _ => false

/-- The guard `v && typeof v === "object"` used throughout the script. -/
def JsValue.truthyObject (v : JsValue) : Bool :=
  v.truthy && v.typeofObject

/-- `Array.isArray(v)`. -/
def JsValue.isArr : JsValue → Bool
  | .arr _ => true
  | _ => false

/-- Property read `v.k`: `some` the stored value on objects carrying the key,
`none` (JS `undefined`) otherwise.  The script only dynamically reads named
properties that arrays and primitives do not carry. -/
def JsValue.getField : JsValue → String → Option JsValue
  | .obj fields, k => (fields.find? (fun p => p.1 == k)).map (fun p => p.2)
  | _, _ => none

/-- JS `k in v` for the values and keys the script tests. -/
def JsValue.hasField (v : JsValue) (k : String) : Bool :=
  (v.getField k).isSome

/-- Whether an optional property value is a JS number
(`typeof v.k === "number"`, `undefined` when the key is missing). -/
def isNumberOpt : Option JsValue → Bool
  | some (.num _) => true
  | _ => false

/-- Whether an optional property value is an array (`Array.isArray(v.k)`,
with `undefined` when the key is missing). -/
def isArrayOpt : Option JsValue → Bool
  | some (.arr _) => true
  | _ => false

/-- JS truthiness of an optional property value (missing = `undefined`,
which is falsy). -/
def truthyOpt : Option JsValue → Bool
  | some v => v.truthy
  | none => false

theorem sizeOf_lt_of_getField {v u : JsValue} {k : String}
    (h : v.getField k = some u) : sizeOf u < sizeOf v := by
  cases v with
  | obj fields =>
    simp only [JsValue.getField, Option.map_eq_some'] at h
    obtain ⟨p, hp, hpu⟩ := h
    have hm : p ∈ fields := List.mem_of_find?_eq_some hp
    have h1 : sizeOf p < sizeOf fields := List.sizeOf_lt_of_mem hm
    have h2 : sizeOf u < sizeOf p := by
      obtain ⟨k', v'⟩ := p
      cases hpu
      simp only [Prod.mk.sizeOf_spec]
      omega
    have : sizeOf (JsValue.obj fields) = 1 + sizeOf fields := by simp
    omega
  | null => simp [JsValue.getField] at h
  | bool b => simp [JsValue.getField] at h
  | num n => simp [JsValue.getField] at h
  | str s => simp [JsValue.getField] at h
  | arr elems => simp [JsValue.getField] at h

set_option linter.unusedVariables false in
/-- `countMentionsInMessageContent(arr)` from `analytics.js`: counts the
nodes, at any depth, that are truthy objects whose `type` property is the
string `"mention"`, recursing into each node's `children` property whenever
it is an array. -/
def countMentionsInMessageContent : List JsValue → Nat
  | [] => 0
  | thing :: rest =>
    (if thing.truthyObject then
      (if thing.getField "type" = some (.str "mention") then 1 else 0) +
      (match h : thing.getField "children" with
       | some (.arr cs) => countMentionsInMessageContent cs
       | _ => 0)
     else 0) + countMentionsInMessageContent rest
termination_by l => sizeOf l
decreasing_by
  · have := sizeOf_lt_of_getField h
    simp at this ⊢
    omega
  · simp

/-! ## autoRetry

`autoRetry(func)` awaits `func()`; if that throws it logs and awaits
`func()` once more, letting a second failure propagate.  We model the
successive evaluations of the thunk as a stream of outcomes
`attempt : Nat → Except E A` and record how many evaluations happen. -/

/-- `autoRetry(func)` from `analytics.js`, over the stream of outcomes the
thunk would produce on successive calls. -/
def autoRetry {E A : Type} (attempt : Nat → Except E A) : Except E A :=
  match attempt 0 with
  | .ok a => .ok a
  | .error _ => attempt 1

/-- Number of times `autoRetry` evaluates its thunk. -/
def autoRetryCalls {E A : Type} (attempt : Nat → Except E A) : Nat :=
  match attempt 0 with
  | .ok _ => 1
  | .error _ => 2

/-! ## Paginated fetcher

`getUsers` / `getThreads` / `getMessages` share one shape: a `do … while
(paginationToken !== null)` loop that requests
`/v1/<resource>?limit=N[&token=T]`, validates the body, appends the page's
items and takes the next cursor from `pagination.token`.  We model the
network as the list of (post-retry) responses the successive requests
receive, and record the trace of page requests the loop issues. -/

/-- An HTTP response as the script sees it after `autoRetry` resolved:
a status code and a parsed JSON body. -/
structure HttpResp where
  status : Nat
  data : JsValue
  deriving Repr

/-- One page request issued by the fetch loop: the `limit` query parameter
and the `token` query parameter (absent exactly when the stored cursor is
`null`). -/
structure PageRequest where
  limit : Nat
  token : Option JsValue
  deriving Repr, DecidableEq

/-- How a fetch loop run ends abnormally: non-200 status, missing/mistyped
item array (`"Request for users was malformed -- no users"`), or
missing/mistyped pagination (`"Malformed pagination data …"`). -/
inductive FetchErr where
  | httpStatus
  | missingItems
  | malformedPagination
  deriving Repr, DecidableEq

/-- Result of running the fetch loop against a scripted response list:
either the loop exited normally with the accumulated items (`done`), threw
(`failed`), or consumed every scripted response while still looping
(`starved` — the model's way of saying the environment script ended). -/
inductive FetchOutcome where
  | done (items : List JsValue)
  | failed (e : FetchErr)
  | starved
  deriving Repr, DecidableEq

/-- A fetch-loop run: the page requests issued, in order, and the outcome. -/
structure FetchTrace where
  requests : List PageRequest
  outcome : FetchOutcome
  deriving Repr, DecidableEq

/-- The request the loop builds from the current cursor: the `token`
parameter is appended exactly when `paginationToken !== null`. -/
def mkPageRequest (limit : Nat) (cursor : JsValue) : PageRequest :=
  { limit := limit, token := if cursor = .null then none else some cursor }

/-- The cursor extracted by the pagination validation block: requires
`"pagination" in data`, `typeof data.pagination === "object"`,
`data.pagination` truthy, and both `"token" in` and `"total" in` it; then
reads `data.pagination.token`. -/
def paginationCursor (data : JsValue) : Option JsValue :=
  match data.getField "pagination" with
  | some p =>
      if p.typeofObject && p.truthy && p.hasField "token" && p.hasField "total" then
        p.getField "token"
      else
        none
  | none => none

/-- One paginated fetch loop (`getUsers`/`getThreads`/`getMessages` with
`field` = `"users"`/`"threads"`/`"messages"`), run against the scripted
list of responses its successive page requests receive.  Mirrors the
`do`-body: status check, item-array validation and accumulation, pagination
validation, cursor update; a body that is not a truthy object is skipped by
the `if (data && typeof data === "object")` guard with the cursor
unchanged. -/
def fetchPaginated (field : String) (limit : Nat) :
    List HttpResp → JsValue → List JsValue → FetchTrace
  | [], cursor, _ =>
      { requests := [mkPageRequest limit cursor], outcome := .starved }
  | resp :: rest, cursor, acc =>
      let req := mkPageRequest limit cursor
      if resp.status = 200 then
        if resp.data.truthyObject then
          match resp.data.getField field with
          | some (.arr items) =>
              let acc2 := acc ++ items
              match paginationCursor resp.data with
              | some tok =>
                  if tok = .null then
                    { requests := [req], outcome := .done acc2 }
                  else
                    let t := fetchPaginated field limit rest tok acc2
                    { requests := req :: t.requests, outcome := t.outcome }
              | none => { requests := [req], outcome := .failed .malformedPagination }
          | _ => { requests := [req], outcome := .failed .missingItems }
        else
          if cursor = .null then
            { requests := [req], outcome := .done acc }
          else
            let t := fetchPaginated field limit rest cursor acc
            { requests := req :: t.requests, outcome := t.outcome }
      else
        { requests := [req], outcome := .failed .httpStatus }

/-- `getUsers` (page size 25000, item field `"users"`), as a run against
scripted responses, starting from `paginationToken = null` and `users = []`. -/
def getUsers (resps : List HttpResp) : FetchTrace :=
  fetchPaginated "users" 25000 resps .null []

/-- `getThreads` (page size 25000, item field `"threads"`). -/
def getThreads (resps : List HttpResp) : FetchTrace :=
  fetchPaginated "threads" 25000 resps .null []

/-- `getMessages` (page size 1500, item field `"messages"`). -/
def getMessages (resps : List HttpResp) : FetchTrace :=
  fetchPaginated "messages" 1500 resps .null []

/-- `getGroups`: single non-paginated request; the body must be a truthy
array (`if (data && Array.isArray(data))`), else the function throws. -/
def getGroups (resp : HttpResp) : Except FetchErr (List JsValue) :=
  if resp.status = 200 then
    match resp.data with
    | .arr groups => .ok groups
    | _ => .error .missingItems
  else
    .error .httpStatus

/-! ## Metric aggregator

The body of `generateApplicationAnalytics`: four linear reductions over the
fetched collections, then the 18-key metrics row object literal.  JS sums
of dynamic numbers are modelled as `Int`, array lengths and counters as
`Nat`. -/

/-- Accumulator of the `for (let u of users)` loop. -/
structure UserAcc where
  active : Nat
  deleted : Nat
  deriving Repr, DecidableEq

/-- One iteration of the user loop: `u && typeof u === "object"`, then
`u.status === "active"` / `else if (u.status === "deleted")`. -/
def userStep (acc : UserAcc) (u : JsValue) : UserAcc :=
  if u.truthyObject then
    if u.getField "status" = some (.str "active") then
      { acc with active := acc.active + 1 }
    else if u.getField "status" = some (.str "deleted") then
      { acc with deleted := acc.deleted + 1 }
    else acc
  else acc

/-- Accumulator of the `for (let g of groups)` loop. -/
structure GroupAcc where
  active : Nat
  deleted : Nat
  slackConnected : Nat
  deriving Repr, DecidableEq

/-- One iteration of the group loop: status as for users, plus
`if (g.connectToSlack)` (truthiness, not a type test). -/
def groupStep (acc : GroupAcc) (g : JsValue) : GroupAcc :=
  if g.truthyObject then
    let acc :=
      if g.getField "status" = some (.str "active") then
        { acc with active := acc.active + 1 }
      else if g.getField "status" = some (.str "deleted") then
        { acc with deleted := acc.deleted + 1 }
      else acc
    if truthyOpt (g.getField "connectToSlack") then
      { acc with slackConnected := acc.slackConnected + 1 }
    else acc
  else acc

/-- The running thread-participant set (`new Set()`), kept as the list of
distinct values in insertion order. -/
def setAdd (s : List JsValue) (x : JsValue) : List JsValue :=
  if x ∈ s then s else s ++ [x]

/-- Inner participant loop body: `p && typeof p === "object" && "userID" in p`,
then `threadParticipants.add(p.userID)`. -/
def participantStep (s : List JsValue) (p : JsValue) : List JsValue :=
  if p.truthyObject then
    match p.getField "userID" with
    | some uid => setAdd s uid
    | none => s
  else s

/-- Accumulator of the `for (const t of threads)` loop. -/
structure ThreadAcc where
  resolvedCount : Nat
  messageTotal : Int
  actionMessagesTotal : Int
  userMessagesTotal : Int
  deletedMessagesTotal : Int
  participants : List JsValue
  deriving Repr, DecidableEq

/-- One iteration of the thread loop: `if (t.resolved)` (truthiness), four
`typeof t.x === "number"` guarded sums, and the participants sub-loop
guarded by `t.participants && Array.isArray(t.participants)`. -/
def threadStep (acc : ThreadAcc) (t : JsValue) : ThreadAcc :=
  if t.truthyObject then
    let acc :=
      if truthyOpt (t.getField "resolved") then
        { acc with resolvedCount := acc.resolvedCount + 1 }
      else acc
    let acc :=
      match t.getField "total" with
      | some (.num n) => { acc with messageTotal := acc.messageTotal + n }
      | _ => acc
    let acc :=
      match t.getField "actionMessages" with
      | some (.num n) => { acc with actionMessagesTotal := acc.actionMessagesTotal + n }
      | _ => acc
    let acc :=
      match t.getField "userMessages" with
      | some (.num n) => { acc with userMessagesTotal := acc.userMessagesTotal + n }
      | _ => acc
    let acc :=
      match t.getField "deletedMessages" with
      | some (.num n) => { acc with deletedMessagesTotal := acc.deletedMessagesTotal + n }
      | _ => acc
    match t.getField "participants" with
    | some (.arr ps) => { acc with participants := ps.foldl participantStep acc.participants }
    | _ => acc
  else acc

/-- Accumulator of the `for (const m of messages)` loop. -/
structure MessageAcc where
  mentions : Nat
  reactions : Nat
  attachments : Nat
  deriving Repr, DecidableEq

/-- One iteration of the message loop: `m.reactions && Array.isArray(...)`,
same for `attachments`, and the content scan over `m.content`. -/
def messageStep (acc : MessageAcc) (m : JsValue) : MessageAcc :=
  if m.truthyObject then
    let acc :=
      match m.getField "reactions" with
      | some (.arr rs) => { acc with reactions := acc.reactions + rs.length }
      | _ => acc
    let acc :=
      match m.getField "attachments" with
      | some (.arr as) => { acc with attachments := acc.attachments + as.length }
      | _ => acc
    match m.getField "content" with
    | some (.arr cs) =>
        { acc with mentions := acc.mentions + countMentionsInMessageContent cs }
    | _ => acc
  else acc

/-- The metrics-row object literal returned by
`generateApplicationAnalytics`, keys in the source's insertion order. -/
def computeRow (users groups threads messages : List JsValue) : List (String × Int) :=
  let uc := users.foldl userStep ⟨0, 0⟩
  let gc := groups.foldl groupStep ⟨0, 0, 0⟩
  let tc := threads.foldl threadStep ⟨0, 0, 0, 0, 0, []⟩
  let mc := messages.foldl messageStep ⟨0, 0, 0⟩
  [("Total User Count", (users.length : Int)),
   ("Active User Count", (uc.active : Int)),
   ("Deleted User Count", (uc.deleted : Int)),
   ("Total Group Count", (groups.length : Int)),
   ("Active Group Count", (gc.active : Int)),
   ("Deleted Group Count", (gc.deleted : Int)),
   ("Slack Connected Group Count", (gc.slackConnected : Int)),
   ("Total Thread Count", (threads.length : Int)),
   ("Total Resolved Thread Count", (tc.resolvedCount : Int)),
   ("Total Message Count", tc.messageTotal),
   ("Total Deleted Message Count", tc.deletedMessagesTotal),
   ("Total User Messages Count", tc.userMessagesTotal),
   ("Total Action Messages Count", tc.actionMessagesTotal),
   ("Total Thread Participants Count", (tc.participants.length : Int)),
   ("Total Messages", (messages.length : Int)),
   ("Total Mention Messages Count", (mc.mentions : Int)),
   ("Total Reactions Count", (mc.reactions : Int)),
   ("Total Attachments Count", (mc.attachments : Int))]

/-- The `id`/`secret`/`name` string-typing precondition at the top of
`generateApplicationAnalytics`; yields `(id, name)` as later pushed onto
the result row. -/
def validApp (app : JsValue) : Option (String × String) :=
  if app.truthyObject then
    match app.getField "id", app.getField "secret", app.getField "name" with
    | some (.str i), some (.str _), some (.str n) => some (i, n)
    | _, _, _ => none
  else none

/-! ## Run orchestrator (`main`)

The network is scripted: `appsResp` is the (post-retry) outcome of the
applications request, and `script` gives each application the responses its
four resource fetches receive.  `main` either terminates via
`process.exit`/normal completion (`exited code written`) or crashes with an
uncaught runtime `TypeError` (`crashedTypeError`).  A run whose scripted
responses are exhausted while a fetch loop still wants pages is outside the
model and yields `none`. -/

/-- Per-application scripted responses for the four concurrent fetches. -/
structure AppScript where
  userResps : List HttpResp
  groupResp : HttpResp
  threadResps : List HttpResp
  messageResps : List HttpResp

/-- `generateApplicationAnalytics(debugName, app)` run against scripted
responses: `some (.ok (id, name, row))` on success, `some (.error ())` when
the function throws (invalid application record, or any fetch failure),
`none` when a fetch starves the script. -/
def generateApplicationAnalytics (app : JsValue) (script : AppScript) :
    Option (Except Unit (String × String × List (String × Int))) :=
  match validApp app with
  | none => some (.error ())
  | some (i, n) =>
    let u := (getUsers script.userResps).outcome
    let t := (getThreads script.threadResps).outcome
    let m := (getMessages script.messageResps).outcome
    if u = .starved ∨ t = .starved ∨ m = .starved then none
    else
      match u, getGroups script.groupResp, t, m with
      | .done users, .ok groups, .done threads, .done messages =>
          some (.ok (i, n, computeRow users groups threads messages))
      | _, _, _, _ => some (.error ())

/-- Possible ends of a `main` run: `process.exit(code)` / normal
completion (with the output string if the write succeeded), or an uncaught
runtime `TypeError`. -/
inductive MainResult where
  | exited (code : Nat) (written : Option String)
  | crashedTypeError
  deriving Repr, DecidableEq

/-- `listApplications()`: network failure after retry exits the process
(modelled as `.error`), a non-200 status likewise; otherwise the parsed
body is returned. -/
def listApplications (resp : Except Unit HttpResp) : Except Unit JsValue :=
  match resp with
  | .error _ => .error ()
  | .ok r => if r.status = 200 then .ok r.data else .error ()

/-- The hard-coded two-entry application denylist in `main`. -/
def denylisted (app : JsValue) : Bool :=
  (app.getField "id" == some (.str "923ecd44-198f-49a2-a4f5-96f69c3d148b")) ||
  (app.getField "id" == some (.str "aeb2797f-f0a3-485c-a317-4986e2c8343b"))

/-- The `for (let application of applications)` loop of `main`:
non-(truthy-object) entries exit the process, denylisted entries are
skipped, analytics failures exit the process, successes are pushed onto
`applicationData`. -/
def processApps (script : JsValue → AppScript) :
    List JsValue → List (String × String × List (String × Int)) →
    Option (Except Unit (List (String × String × List (String × Int))))
  | [], acc => some (.ok acc)
  | app :: rest, acc =>
    if app.truthyObject then
      if denylisted app then
        processApps script rest acc
      else
        match generateApplicationAnalytics app (script app) with
        | some (.ok entry) => processApps script rest (acc ++ [entry])
        | some (.error _) => some (.error ())
        | none => none
    else
      some (.error ())

/-- `app[2][k]` as rendered by `Array.prototype.join`: the looked-up metric
value printed, or the empty string for a missing key (JS `undefined`). -/
def cellOf (row : List (String × Int)) (k : String) : String :=
  match row.find? (fun p => p.1 == k) with
  | some p => toString p.2
  | none => ""

/-- The inner `for (const k of keys) row.push(app[2][k])` loop. -/
def rowCellsLoop (row : List (String × Int)) : List String → List String → List String
  | [], acc => acc
  | k :: ks, acc => rowCellsLoop row ks (acc ++ [cellOf row k])

/-- The outer `for (const app of applicationData)` loop pushing one joined
line per application onto `output`. -/
def outputLinesLoop (keys : List String) :
    List (String × String × List (String × Int)) → List String → List String
  | [], out => out
  | e :: rest, out =>
      outputLinesLoop keys rest
        (out ++ [String.intercalate "," (rowCellsLoop e.2.2 keys [e.1, e.2.1])])

/-- `Object.keys` of a metrics row: the keys in insertion order. -/
def rowKeys (row : List (String × Int)) : List String := row.map Prod.fst

/-- `output.join("\n") + "\n"` with `output` = header line then one line
per application. -/
def renderOutput (keys : List String)
    (appData : List (String × String × List (String × Int))) : String :=
  String.intercalate "\n"
    (outputLinesLoop keys appData [String.intercalate "," ("ID" :: "Name" :: keys)]) ++ "\n"

/-- The config guards at the top of the script (before `main`): a missing
`CUSTOMER_ID` or `CUSTOMER_SECRET` throws — Node terminates an uncaught
throw with exit code 1 — and a missing `--outputFile` calls
`process.exit(1)`.  `some code` means the process ends with that code
before any network activity; `none` means the run proceeds to `main`. -/
def configCheck (hasCustomerID hasCustomerSecret hasOutputFile : Bool) : Option Nat :=
  if !hasCustomerID then some 1
  else if !hasCustomerSecret then some 1
  else if !hasOutputFile then some 1
  else none

/-- The environment a whole `main` run is judged against. -/
structure MainEnv where
  appsResp : Except Unit HttpResp
  script : JsValue → AppScript
  writeOk : Bool

/-- `main()` from `analytics.js`.  Note the write step: a failing
`fs.writeFileSync` is caught, logged, and the function still runs to
completion, so the process exits with code 0 either way. -/
def mainRun (env : MainEnv) : Option MainResult :=
  match listApplications env.appsResp with
  | .error _ => some (.exited 1 none)
  | .ok apps =>
    match apps with
    | .arr appList =>
      match processApps env.script appList [] with
      | none => none
      | some (.error _) => some (.exited 1 none)
      | some (.ok appData) =>
        match appData with
        | [] => some .crashedTypeError
        | first :: _ =>
          let out := renderOutput (rowKeys first.2.2) appData
          some (.exited 0 (if env.writeOk then some out else none))
    | _ => some (.exited 1 none)

/-! ## Spec-side auxiliary definitions (instrumentation used by the claims) -/

/-- A canonical mention node without children. -/
def mentionNode : JsValue := .obj [("type", .str "mention")]

/-- A chain of `d + 1` nested single-child mention nodes. -/
def mentionChain : Nat → JsValue
  | 0 => mentionNode
  | d + 1 => .obj [("type", .str "mention"), ("children", .arr [mentionChain d])]

/-- Which abnormality (if any) a fetch run ended in, forgetting the items. -/
inductive FetchKind where
  | completed
  | failedWith (e : FetchErr)
  | ranOut
  deriving Repr, DecidableEq

/-- Classify a fetch outcome, forgetting the accumulated items. -/
def FetchOutcome.kind : FetchOutcome → FetchKind
  | .done _ => .completed
  | .failed e => .failedWith e
  | .starved => .ranOut

/-- Instrumentation for the page-size-independence part of the loop
invariant: replace a response's item array (only when it has a well-formed
one) by an arbitrary other array, leaving status and everything else
untouched. -/
def setPageItems (field : String) (items : List JsValue) (r : HttpResp) : HttpResp :=
  if isArrayOpt (r.data.getField field) then
    match r.data with
    | .obj fields =>
        ⟨r.status, .obj (fields.map (fun p => if p.1 = field then (p.1, .arr items) else p))⟩
    | _ => r
  else r

/-- Replace the `i`-th response's item array by `g i`, for every `i`. -/
def setAllPageItems (field : String) (g : Nat → List JsValue) : List HttpResp → List HttpResp
  | [] => []
  | r :: rest => setPageItems field (g 0) r :: setAllPageItems field (fun n => g (n + 1)) rest

/-- The `pagination.total` value a response declares, if any. -/
def declaredTotal (r : HttpResp) : Option JsValue :=
  match r.data.getField "pagination" with
  | some p => p.getField "total"
  | none => none

/-- Overwrite the `total` entry of a pagination object (identity on
anything that is not an object). -/
def setTotalInPagination (n : Int) : JsValue → JsValue
  | .obj pf => .obj (pf.map (fun q => if q.1 = "total" then (q.1, .num n) else q))
  | other => other

/-- Overwrite the declared total inside a body's `pagination` value
(identity on anything that is not an object). -/
def setTotalInData (n : Int) : JsValue → JsValue
  | .obj fields =>
      .obj (fields.map (fun p =>
        if p.1 = "pagination" then (p.1, setTotalInPagination n p.2) else p))
  | other => other

/-- Instrumentation for the totals-are-never-checked property: overwrite the
`total` value inside a response's `pagination` object (wherever that shape
exists) with an arbitrary number. -/
def setDeclaredTotal (n : Int) (r : HttpResp) : HttpResp :=
  { r with data := setTotalInData n r.data }

/-- The `userID` values of one thread's participants entries, as the spec
describes them: values at key `userID` of the truthy-object entries of the
thread's `participants` array. -/
def extractUserIDs (t : JsValue) : List JsValue :=
  if t.truthyObject then
    match t.getField "participants" with
    | some (.arr ps) =>
        ps.filterMap (fun p => if p.truthyObject then p.getField "userID" else none)
    | _ => []
  else []

/-- All `userID` values across a list of threads, in encounter order. -/
def allUserIDs (threads : List JsValue) : List JsValue :=
  threads.flatMap extractUserIDs

/-- Look a metric up in a metrics row by name. -/
def rowValue (row : List (String × Int)) (k : String) : Option Int :=
  (row.find? (fun p => p.1 == k)).map (fun p => p.2)

/-! ## Claim C3: autoRetry semantics -/

/-- **C3.** For every request wrapped by `autoRetry`: a successful first
attempt is returned with no retry; after a failed first attempt exactly one
retry is made and its result (success or failure) is what `autoRetry`
produces; at most two attempts ever happen, and the result depends only on
the first two attempt outcomes (so no third attempt can influence
anything). -/
theorem autoRetry_retries_exactly_once {E A : Type} (attempt : Nat → Except E A) :
    (∀ a, attempt 0 = .ok a → autoRetry attempt = .ok a ∧ autoRetryCalls attempt = 1) ∧
    (∀ e a, attempt 0 = .error e → attempt 1 = .ok a →
      autoRetry attempt = .ok a ∧ autoRetryCalls attempt = 2) ∧
    (∀ e f, attempt 0 = .error e → attempt 1 = .error f →
      autoRetry attempt = .error f ∧ autoRetryCalls attempt = 2) ∧
    autoRetryCalls attempt ≤ 2 ∧
    (∀ g : Nat → Except E A, attempt 0 = g 0 → attempt 1 = g 1 →
      autoRetry attempt = autoRetry g) := by
  refine ⟨?_, ?_, ?_, ?_, ?_⟩
  · intro a h; simp [autoRetry, autoRetryCalls, h]
  · intro e a h h1; simp [autoRetry, autoRetryCalls, h, h1]
  · intro e f h h1; simp [autoRetry, autoRetryCalls, h, h1]
  · cases h : attempt 0 <;> simp [autoRetryCalls, h]
  · intro g h0 h1
    unfold autoRetry
    rw [← h0, ← h1]

/-- Witness for C3 at a concrete thunk whose first call fails and whose
second call succeeds. -/
theorem autoRetry_retries_exactly_once_witness :
    autoRetry (fun n => if n = 0 then (.error "boom" : Except String Nat) else .ok 7) = .ok 7 ∧
    autoRetryCalls (fun n => if n = 0 then (.error "boom" : Except String Nat) else .ok 7) = 2 :=
  (autoRetry_retries_exactly_once
    (fun n => if n = 0 then (.error "boom" : Except String Nat) else .ok 7)).2.1
    "boom" 7 rfl rfl

/-! ## Claim C5: the content tree scanner -/

theorem countMentions_nil : countMentionsInMessageContent [] = 0 := by
  simp [countMentionsInMessageContent]

theorem countMentions_cons_not_object {x : JsValue} (rest : List JsValue)
    (hx : x.truthyObject = false) :
    countMentionsInMessageContent (x :: rest) = countMentionsInMessageContent rest := by
  simp [countMentionsInMessageContent, hx]

theorem countMentions_cons_no_children {x : JsValue} (rest : List JsValue)
    (hx : x.truthyObject = true) (hc : isArrayOpt (x.getField "children") = false) :
    countMentionsInMessageContent (x :: rest) =
      (if x.getField "type" = some (.str "mention") then 1 else 0) +
        countMentionsInMessageContent rest := by
  rw [countMentionsInMessageContent, if_pos hx]
  congr 1
  rw [add_right_eq_self]
  split
  · rename_i cs heq
    rw [heq] at hc
    simp [isArrayOpt] at hc
  · rfl

theorem countMentions_cons_children {x : JsValue} (rest cs : List JsValue)
    (hx : x.truthyObject = true) (hc : x.getField "children" = some (.arr cs)) :
    countMentionsInMessageContent (x :: rest) =
      (if x.getField "type" = some (.str "mention") then 1 else 0) +
        countMentionsInMessageContent cs + countMentionsInMessageContent rest := by
  rw [countMentionsInMessageContent, if_pos hx]
  split
  · split
    · rename_i cs2 heq
      rw [hc] at heq
      injection heq with h1
      injection h1 with h2
      subst h2
      omega
    · rename_i hfn
      exact (hfn _ hc).elim
  · split
    · rename_i cs2 heq
      rw [hc] at heq
      injection heq with h1
      injection h1 with h2
      subst h2
      omega
    · rename_i hfn
      exact (hfn _ hc).elim

theorem countMentions_flat (l : List JsValue)
    (h : ∀ x ∈ l, x.truthyObject = true ∧ x.getField "type" = some (.str "mention") ∧
      isArrayOpt (x.getField "children") = false) :
    countMentionsInMessageContent l = l.length := by
  induction l with
  | nil => exact countMentions_nil
  | cons x rest ih =>
    obtain ⟨hx, hty, hch⟩ := h x (List.mem_cons_self x rest)
    rw [countMentions_cons_no_children rest hx hch, if_pos hty,
      ih (fun y hy => h y (List.mem_cons_of_mem x hy))]
    simp [Nat.add_comm]

theorem countMentions_chain (d : Nat) :
    countMentionsInMessageContent [mentionChain d] = d + 1 := by
  induction d with
  | zero =>
    rw [countMentions_cons_no_children [] (by decide) (by decide)]
    simp [mentionChain, mentionNode, countMentions_nil]
    decide
  | succ d ih =>
    have hc : (mentionChain (d + 1)).getField "children" = some (.arr [mentionChain d]) := by
      simp [mentionChain, JsValue.getField, List.find?]
    rw [countMentions_cons_children [] [mentionChain d] (by simp [mentionChain]; rfl) hc]
    rw [countMentions_nil, ih]
    rw [if_pos (by simp [mentionChain, JsValue.getField, List.find?])]
    omega

/-- **C5.** `countMentionsInMessageContent` counts, at any depth, the nodes
whose `type` is `"mention"`: it is 0 on `[]`, `N` on a flat list of `N`
mention-typed nodes without a children array, `D` on a single chain of `D`
nested single-child mention nodes, ignores non-object entries and stops
descending at nodes without a `children` array, and adds only the
descendants' count for non-mention nodes that do have children. -/
theorem countMentions_spec :
    countMentionsInMessageContent [] = 0 ∧
    (∀ l : List JsValue,
      (∀ x ∈ l, x.truthyObject = true ∧ x.getField "type" = some (.str "mention") ∧
        isArrayOpt (x.getField "children") = false) →
      countMentionsInMessageContent l = l.length) ∧
    (∀ d : Nat, countMentionsInMessageContent [mentionChain d] = d + 1) ∧
    (∀ (x : JsValue) (rest : List JsValue), x.truthyObject = false →
      countMentionsInMessageContent (x :: rest) = countMentionsInMessageContent rest) ∧
    (∀ (x : JsValue) (rest : List JsValue), x.truthyObject = true →
      isArrayOpt (x.getField "children") = false →
      countMentionsInMessageContent (x :: rest) =
        (if x.getField "type" = some (.str "mention") then 1 else 0) +
          countMentionsInMessageContent rest) ∧
    (∀ (x : JsValue) (rest cs : List JsValue), x.truthyObject = true →
      x.getField "type" ≠ some (.str "mention") →
      x.getField "children" = some (.arr cs) →
      countMentionsInMessageContent (x :: rest) =
        countMentionsInMessageContent cs + countMentionsInMessageContent rest) :=
  ⟨countMentions_nil,
   countMentions_flat,
   countMentions_chain,
   fun _ rest hx => countMentions_cons_not_object rest hx,
   fun _ rest hx hc => countMentions_cons_no_children rest hx hc,
   fun x rest cs hx hty hc => by
     rw [countMentions_cons_children rest cs hx hc, if_neg hty, Nat.zero_add]⟩

/-- Witness for C5 at concrete content trees: a flat pair of mention nodes
counts 2, a non-object entry is skipped, and a non-mention wrapper node
contributes only its descendants. -/
theorem countMentions_spec_witness :
    countMentionsInMessageContent [mentionNode, mentionNode] = 2 ∧
    countMentionsInMessageContent [JsValue.num 5] = countMentionsInMessageContent [] ∧
    countMentionsInMessageContent
        [JsValue.obj [("type", .str "paragraph"), ("children", .arr [mentionNode])]] =
      countMentionsInMessageContent [mentionNode] + countMentionsInMessageContent [] := by
  refine ⟨?_, ?_, ?_⟩
  · exact countMentions_spec.2.1 [mentionNode, mentionNode] (by decide)
  · exact countMentions_spec.2.2.2.1 (JsValue.num 5) [] (by decide)
  · exact countMentions_spec.2.2.2.2.2
      (JsValue.obj [("type", .str "paragraph"), ("children", .arr [mentionNode])])
      [] [mentionNode] (by decide) (by decide) (by decide)

/-! ## Obj-update lemmas for the instrumented responses -/

theorem getField_set_ne (fields : List (String × JsValue)) (field k : String)
    (g : JsValue → JsValue) (hk : k ≠ field) :
    (JsValue.obj (fields.map (fun p => if p.1 = field then (p.1, g p.2) else p))).getField k =
      (JsValue.obj fields).getField k := by
  simp only [JsValue.getField, List.find?_map]
  have hpred : ((fun p : String × JsValue => p.1 == k) ∘
      (fun p : String × JsValue => if p.1 = field then (p.1, g p.2) else p)) =
      fun p : String × JsValue => p.1 == k := by
    funext p
    by_cases h : p.1 = field <;> simp [h]
  rw [hpred]
  cases hf : fields.find? (fun p => p.1 == k) with
  | none => rfl
  | some q =>
    have hq : q.1 = k := by simpa using List.find?_some hf
    have hqf : ¬ q.1 = field := by rw [hq]; exact hk
    simp [hqf]

theorem getField_set_eq (fields : List (String × JsValue)) (field : String)
    (g : JsValue → JsValue) :
    (JsValue.obj (fields.map (fun p => if p.1 = field then (p.1, g p.2) else p))).getField
        field =
      ((JsValue.obj fields).getField field).map g := by
  simp only [JsValue.getField, List.find?_map]
  have hpred : ((fun p : String × JsValue => p.1 == field) ∘
      (fun p : String × JsValue => if p.1 = field then (p.1, g p.2) else p)) =
      fun p : String × JsValue => p.1 == field := by
    funext p
    by_cases h : p.1 = field <;> simp [h]
  rw [hpred]
  cases hf : fields.find? (fun p => p.1 == field) with
  | none => rfl
  | some q =>
    have hq : q.1 = field := by simpa using List.find?_some hf
    simp [hq]

/-! ## Step equations of the fetch loop -/

theorem fetchStep_http (field : String) (limit : Nat) (r : HttpResp)
    (rest : List HttpResp) (cursor : JsValue) (acc : List JsValue)
    (hs : ¬ r.status = 200) :
    fetchPaginated field limit (r :: rest) cursor acc =
      { requests := [mkPageRequest limit cursor], outcome := .failed .httpStatus } := by
  rw [fetchPaginated, if_neg hs]

theorem fetchStep_missingItems (field : String) (limit : Nat) (r : HttpResp)
    (rest : List HttpResp) (cursor : JsValue) (acc : List JsValue)
    (hs : r.status = 200) (ht : r.data.truthyObject = true)
    (ha : isArrayOpt (r.data.getField field) = false) :
    fetchPaginated field limit (r :: rest) cursor acc =
      { requests := [mkPageRequest limit cursor], outcome := .failed .missingItems } := by
  rw [fetchPaginated, if_pos hs, if_pos ht]
  split
  · rename_i items heq
    rw [heq] at ha
    simp [isArrayOpt] at ha
  · rfl

theorem fetchStep_badPagination (field : String) (limit : Nat) (r : HttpResp)
    (rest : List HttpResp) (cursor : JsValue) (acc items : List JsValue)
    (hs : r.status = 200) (ht : r.data.truthyObject = true)
    (hf : r.data.getField field = some (.arr items))
    (hp : paginationCursor r.data = none) :
    fetchPaginated field limit (r :: rest) cursor acc =
      { requests := [mkPageRequest limit cursor], outcome := .failed .malformedPagination } := by
  rw [fetchPaginated, if_pos hs, if_pos ht]
  simp only [hf, hp]

theorem fetchStep_skip_done (field : String) (limit : Nat) (r : HttpResp)
    (rest : List HttpResp) (acc : List JsValue)
    (hs : r.status = 200) (ht : r.data.truthyObject = false) :
    fetchPaginated field limit (r :: rest) .null acc =
      { requests := [mkPageRequest limit .null], outcome := .done acc } := by
  rw [fetchPaginated, if_pos hs, if_neg (by rw [ht]; exact Bool.false_ne_true), if_pos rfl]

theorem fetchStep_skip_continue (field : String) (limit : Nat) (r : HttpResp)
    (rest : List HttpResp) (cursor : JsValue) (acc : List JsValue)
    (hs : r.status = 200) (ht : r.data.truthyObject = false) (hc : ¬ cursor = .null) :
    fetchPaginated field limit (r :: rest) cursor acc =
      { requests := mkPageRequest limit cursor ::
          (fetchPaginated field limit rest cursor acc).requests,
        outcome := (fetchPaginated field limit rest cursor acc).outcome } := by
  rw [fetchPaginated, if_pos hs, if_neg (by rw [ht]; exact Bool.false_ne_true), if_neg hc]

theorem fetchStep_page_done (field : String) (limit : Nat) (r : HttpResp)
    (rest : List HttpResp) (cursor : JsValue) (acc items : List JsValue)
    (hs : r.status = 200) (ht : r.data.truthyObject = true)
    (hf : r.data.getField field = some (.arr items))
    (hp : paginationCursor r.data = some .null) :
    fetchPaginated field limit (r :: rest) cursor acc =
      { requests := [mkPageRequest limit cursor], outcome := .done (acc ++ items) } := by
  rw [fetchPaginated, if_pos hs, if_pos ht]
  simp only [hf, hp]
  simp

theorem fetchStep_page_continue (field : String) (limit : Nat) (r : HttpResp)
    (rest : List HttpResp) (cursor tok : JsValue) (acc items : List JsValue)
    (hs : r.status = 200) (ht : r.data.truthyObject = true)
    (hf : r.data.getField field = some (.arr items))
    (hp : paginationCursor r.data = some tok) (hnn : ¬ tok = .null) :
    fetchPaginated field limit (r :: rest) cursor acc =
      { requests := mkPageRequest limit cursor ::
          (fetchPaginated field limit rest tok (acc ++ items)).requests,
        outcome := (fetchPaginated field limit rest tok (acc ++ items)).outcome } := by
  rw [fetchPaginated, if_pos hs, if_pos ht]
  simp only [hf, hp]
  rw [if_neg hnn]

/-! ## Claim C1: malformed 200 responses -/

/-- **C1 counterexample.** The claim says every 200 response whose body
lacks the expected shape fails with a malformed-response error, "including
bodies that are not objects at all".  But `if (data && typeof data ===
"object")` has no else branch: a 200 response whose body is the plain
string `"oops"` is silently skipped, and since the cursor is still null,
`getUsers` completes successfully with zero items instead of failing. -/
theorem getUsers_nonObject_body_not_an_error :
    getUsers [{ status := 200, data := .str "oops" }] =
      { requests := [{ limit := 25000, token := none }], outcome := .done [] } := by
  decide

/-- **C1 amended.** For a 200 page response whose body is a truthy object
(the only bodies the validation inspects): a missing or non-array item
field throws the missing-items error, and a missing/mistyped `pagination`
(or one lacking `token` or `total`) throws the malformed-pagination error —
in both cases the loop stops at this response with no further request,
whatever responses would have followed (fatal, never retried).  A 200
response whose body is not a truthy object is skipped silently instead:
with a null cursor the fetch completes successfully right there. -/
theorem fetch_malformed_response_fatal (field : String) (limit : Nat)
    (r : HttpResp) (rest : List HttpResp) (cursor : JsValue) (acc : List JsValue)
    (hs : r.status = 200) :
    (r.data.truthyObject = true → isArrayOpt (r.data.getField field) = false →
      fetchPaginated field limit (r :: rest) cursor acc =
        { requests := [mkPageRequest limit cursor], outcome := .failed .missingItems }) ∧
    (∀ items, r.data.truthyObject = true → r.data.getField field = some (.arr items) →
      paginationCursor r.data = none →
      fetchPaginated field limit (r :: rest) cursor acc =
        { requests := [mkPageRequest limit cursor],
          outcome := .failed .malformedPagination }) ∧
    (r.data.truthyObject = false → cursor = .null →
      fetchPaginated field limit (r :: rest) cursor acc =
        { requests := [mkPageRequest limit cursor], outcome := .done acc }) := by
  refine ⟨?_, ?_, ?_⟩
  · intro ht ha
    exact fetchStep_missingItems field limit r rest cursor acc hs ht ha
  · intro items ht hf hp
    exact fetchStep_badPagination field limit r rest cursor acc items hs ht hf hp
  · intro ht hnull
    subst hnull
    exact fetchStep_skip_done field limit r rest acc hs ht

/-- Witness for C1's amended theorem: a 200 body without a `users` array
fails with the missing-items error; a 200 body whose pagination lacks
`total` fails with the malformed-pagination error; both consume exactly one
response even though more are scripted. -/
theorem fetch_malformed_response_fatal_witness :
    fetchPaginated "users" 25000
        [{ status := 200, data := .obj [("nope", .null)] },
         { status := 200, data := .str "never-consumed" }] .null [] =
      { requests := [{ limit := 25000, token := none }],
        outcome := .failed .missingItems } ∧
    fetchPaginated "users" 25000
        [{ status := 200,
           data := .obj [("users", .arr []), ("pagination", .obj [("token", .null)])] },
         { status := 200, data := .str "never-consumed" }] .null [] =
      { requests := [{ limit := 25000, token := none }],
        outcome := .failed .malformedPagination } := by
  constructor
  · exact (fetch_malformed_response_fatal "users" 25000
      { status := 200, data := .obj [("nope", .null)] }
      [{ status := 200, data := .str "never-consumed" }] .null [] rfl).1
      (by decide) (by decide)
  · exact (fetch_malformed_response_fatal "users" 25000
      { status := 200,
        data := .obj [("users", .arr []), ("pagination", .obj [("token", .null)])] }
      [{ status := 200, data := .str "never-consumed" }] .null [] rfl).2.1
      [] (by decide) (by decide) (by decide)

/-! ## Claim C2: the cursor loop invariant -/

theorem fetchPaginated_requests_cons (field : String) (limit : Nat) :
    ∀ (resps : List HttpResp) (cursor : JsValue) (acc : List JsValue),
    ∃ t, (fetchPaginated field limit resps cursor acc).requests =
      mkPageRequest limit cursor :: t := by
  intro resps cursor acc
  cases resps with
  | nil => exact ⟨[], rfl⟩
  | cons r rest =>
    rw [fetchPaginated]
    repeat' split
    all_goals exact ⟨_, rfl⟩

theorem setPageItems_spec (field : String) (items : List JsValue) (r : HttpResp)
    (hfield : field ≠ "pagination") :
    (setPageItems field items r).status = r.status ∧
    (setPageItems field items r).data.truthyObject = r.data.truthyObject ∧
    paginationCursor (setPageItems field items r).data = paginationCursor r.data ∧
    (isArrayOpt (r.data.getField field) = false → setPageItems field items r = r) ∧
    (∀ its, r.data.getField field = some (.arr its) →
      (setPageItems field items r).data.getField field = some (.arr items)) := by
  by_cases harr : isArrayOpt (r.data.getField field) = true
  · have hobj : ∃ fields, r.data = .obj fields := by
      cases hdata : r.data with
      | obj fields => exact ⟨fields, rfl⟩
      | null => rw [hdata] at harr; simp [JsValue.getField, isArrayOpt] at harr
      | bool b => rw [hdata] at harr; simp [JsValue.getField, isArrayOpt] at harr
      | num n => rw [hdata] at harr; simp [JsValue.getField, isArrayOpt] at harr
      | str s => rw [hdata] at harr; simp [JsValue.getField, isArrayOpt] at harr
      | arr es => rw [hdata] at harr; simp [JsValue.getField, isArrayOpt] at harr
    obtain ⟨fields, hdata⟩ := hobj
    have hset : setPageItems field items r =
        ⟨r.status, .obj (fields.map (fun p => if p.1 = field then (p.1, .arr items) else p))⟩ := by
      rw [setPageItems, if_pos harr, hdata]
    refine ⟨by rw [hset], ?_, ?_, ?_, ?_⟩
    · rw [hset, hdata]; rfl
    · rw [hset, hdata]
      unfold paginationCursor
      rw [show (fun p : String × JsValue => if p.1 = field then (p.1, JsValue.arr items) else p) =
        (fun p : String × JsValue => if p.1 = field then (p.1, (fun _ => JsValue.arr items) p.2) else p)
        from rfl]
      rw [getField_set_ne fields field "pagination" (fun _ => JsValue.arr items)
        (fun hh => hfield hh.symm)]
    · intro hfalse; rw [harr] at hfalse; exact absurd hfalse (by simp)
    · intro its hits
      rw [hset]
      change (JsValue.obj (fields.map
        (fun p => if p.1 = field then (p.1, JsValue.arr items) else p))).getField field =
        some (JsValue.arr items)
      rw [show (fun p : String × JsValue => if p.1 = field then (p.1, JsValue.arr items) else p) =
        (fun p : String × JsValue => if p.1 = field then (p.1, (fun _ => JsValue.arr items) p.2) else p)
        from rfl]
      rw [getField_set_eq fields field (fun _ => JsValue.arr items)]
      rw [hdata] at hits
      rw [hits]
      rfl
  · have heq : setPageItems field items r = r := by
      rw [setPageItems, if_neg harr]
    refine ⟨by rw [heq], by rw [heq], by rw [heq], fun _ => heq, ?_⟩
    intro its hits
    rw [hits] at harr
    simp [isArrayOpt] at harr

theorem truthyObject_of_getField_some {v u : JsValue} {k : String}
    (h : v.getField k = some u) : v.truthyObject = true := by
  cases v with
  | obj fields => rfl
  | null => simp [JsValue.getField] at h
  | bool b => simp [JsValue.getField] at h
  | num n => simp [JsValue.getField] at h
  | str s => simp [JsValue.getField] at h
  | arr es => simp [JsValue.getField] at h

theorem fetch_trace_ignores_page_items (field : String) (limit : Nat)
    (hfield : field ≠ "pagination") :
    ∀ (resps : List HttpResp) (g : Nat → List JsValue) (cursor : JsValue)
      (acc1 acc2 : List JsValue),
      (fetchPaginated field limit (setAllPageItems field g resps) cursor acc1).requests =
        (fetchPaginated field limit resps cursor acc2).requests ∧
      (fetchPaginated field limit (setAllPageItems field g resps) cursor acc1).outcome.kind =
        (fetchPaginated field limit resps cursor acc2).outcome.kind := by
  intro resps
  induction resps with
  | nil =>
    intro g cursor acc1 acc2
    exact ⟨rfl, rfl⟩
  | cons r rest ih =>
    intro g cursor acc1 acc2
    obtain ⟨hst, htr, hpag, hid, hset⟩ := setPageItems_spec field (g 0) r hfield
    have hall : setAllPageItems field g (r :: rest) =
        setPageItems field (g 0) r :: setAllPageItems field (fun n => g (n + 1)) rest := rfl
    rw [hall]
    by_cases hs : r.status = 200
    · have hs2 : (setPageItems field (g 0) r).status = 200 := by rw [hst]; exact hs
      by_cases harr : isArrayOpt (r.data.getField field) = true
      · obtain ⟨items0, hgf⟩ : ∃ its, r.data.getField field = some (.arr its) := by
          cases hv : r.data.getField field with
          | none => rw [hv] at harr; simp [isArrayOpt] at harr
          | some v =>
            cases v with
            | arr its => exact ⟨its, rfl⟩
            | null => rw [hv] at harr; simp [isArrayOpt] at harr
            | bool b => rw [hv] at harr; simp [isArrayOpt] at harr
            | num n => rw [hv] at harr; simp [isArrayOpt] at harr
            | str s => rw [hv] at harr; simp [isArrayOpt] at harr
            | obj fs => rw [hv] at harr; simp [isArrayOpt] at harr
        have ht : r.data.truthyObject = true := truthyObject_of_getField_some hgf
        have ht2 : (setPageItems field (g 0) r).data.truthyObject = true := by
          rw [htr]; exact ht
        have hgf2 := hset items0 hgf
        cases hp : paginationCursor r.data with
        | none =>
          rw [fetchStep_badPagination field limit _ _ cursor acc1 (g 0) hs2 ht2 hgf2
            (by rw [hpag]; exact hp)]
          rw [fetchStep_badPagination field limit r rest cursor acc2 items0 hs ht hgf hp]
          exact ⟨rfl, rfl⟩
        | some tok =>
          by_cases hnull : tok = .null
          · subst hnull
            rw [fetchStep_page_done field limit _ _ cursor acc1 (g 0) hs2 ht2 hgf2
              (by rw [hpag]; exact hp)]
            rw [fetchStep_page_done field limit r rest cursor acc2 items0 hs ht hgf hp]
            exact ⟨rfl, rfl⟩
          · rw [fetchStep_page_continue field limit _ _ cursor tok acc1 (g 0) hs2 ht2 hgf2
              (by rw [hpag]; exact hp) hnull]
            rw [fetchStep_page_continue field limit r rest cursor tok acc2 items0 hs ht hgf
              hp hnull]
            obtain ⟨ihr, ihk⟩ := ih (fun n => g (n + 1)) tok (acc1 ++ g 0) (acc2 ++ items0)
            exact ⟨by rw [ihr], ihk⟩
      · have harrf : isArrayOpt (r.data.getField field) = false := by
          simpa using harr
        rw [hid harrf]
        by_cases ht : r.data.truthyObject = true
        · rw [fetchStep_missingItems field limit r _ cursor acc1 hs ht harrf]
          rw [fetchStep_missingItems field limit r rest cursor acc2 hs ht harrf]
          exact ⟨rfl, rfl⟩
        · have htf : r.data.truthyObject = false := by simpa using ht
          by_cases hc : cursor = .null
          · subst hc
            rw [fetchStep_skip_done field limit r _ acc1 hs htf]
            rw [fetchStep_skip_done field limit r rest acc2 hs htf]
            exact ⟨rfl, rfl⟩
          · rw [fetchStep_skip_continue field limit r _ cursor acc1 hs htf hc]
            rw [fetchStep_skip_continue field limit r rest cursor acc2 hs htf hc]
            obtain ⟨ihr, ihk⟩ := ih (fun n => g (n + 1)) cursor acc1 acc2
            exact ⟨by rw [ihr], ihk⟩
    · rw [fetchStep_http field limit _ _ cursor acc1 (by rw [hst]; exact hs)]
      rw [fetchStep_http field limit r rest cursor acc2 hs]
      exact ⟨rfl, rfl⟩

/-- **C2.** The fetch loop's cursor invariant, for any paginated resource
(`getUsers`/`getThreads`/`getMessages` instantiate `field`/`limit`):
(i) the first request carries no `token` parameter;
(ii) after a well-formed page whose `pagination.token` is null the loop
stops — exactly one request, whatever responses would have followed — and
after one whose token is non-null it always issues a further request;
(iii) the sequence of requests issued (and how the loop ends) is unchanged
under arbitrary replacement of every page's item array, so termination
never depends on page sizes. -/
theorem fetch_loop_cursor_invariant (field : String) (limit : Nat)
    (hfield : field ≠ "pagination") :
    (∀ (resps : List HttpResp) (acc : List JsValue),
      ∃ t, (fetchPaginated field limit resps .null acc).requests =
        { limit := limit, token := none } :: t) ∧
    (∀ (r : HttpResp) (rest : List HttpResp) (cursor tok : JsValue)
        (acc items : List JsValue),
      r.status = 200 → r.data.truthyObject = true →
      r.data.getField field = some (.arr items) →
      paginationCursor r.data = some tok →
      ((tok = .null →
        fetchPaginated field limit (r :: rest) cursor acc =
          { requests := [mkPageRequest limit cursor], outcome := .done (acc ++ items) }) ∧
       (¬ tok = .null →
        (fetchPaginated field limit (r :: rest) cursor acc).requests =
          mkPageRequest limit cursor ::
            (fetchPaginated field limit rest tok (acc ++ items)).requests ∧
        (fetchPaginated field limit rest tok (acc ++ items)).requests ≠ []))) ∧
    (∀ (resps : List HttpResp) (g : Nat → List JsValue) (cursor : JsValue)
        (acc1 acc2 : List JsValue),
      (fetchPaginated field limit (setAllPageItems field g resps) cursor acc1).requests =
        (fetchPaginated field limit resps cursor acc2).requests ∧
      (fetchPaginated field limit (setAllPageItems field g resps) cursor acc1).outcome.kind =
        (fetchPaginated field limit resps cursor acc2).outcome.kind) := by
  refine ⟨?_, ?_, fetch_trace_ignores_page_items field limit hfield⟩
  · intro resps acc
    exact fetchPaginated_requests_cons field limit resps .null acc
  · intro r rest cursor tok acc items hs ht hf hp
    constructor
    · intro hnull
      subst hnull
      exact fetchStep_page_done field limit r rest cursor acc items hs ht hf hp
    · intro hnn
      constructor
      · rw [fetchStep_page_continue field limit r rest cursor tok acc items hs ht hf hp hnn]
      · obtain ⟨t, hteq⟩ := fetchPaginated_requests_cons field limit rest tok (acc ++ items)
        rw [hteq]
        exact List.cons_ne_nil _ _

/-- Witness for C2 at concrete response scripts: a page declaring a null
cursor ends the loop in one request even with more responses scripted, and
a page declaring cursor "n" issues a further request. -/
theorem fetch_loop_cursor_invariant_witness :
    fetchPaginated "users" 25000
        [{ status := 200,
           data := .obj [("users", .arr []),
                         ("pagination", .obj [("token", .null), ("total", .num 0)])] },
         { status := 200, data := .str "never-consumed" }] (.str "t0") [] =
      { requests := [{ limit := 25000, token := some (.str "t0") }],
        outcome := .done [] } ∧
    (fetchPaginated "users" 25000
        [{ status := 200,
           data := .obj [("users", .arr []),
                         ("pagination", .obj [("token", .str "n"), ("total", .num 0)])] }]
        .null []).requests =
      mkPageRequest 25000 .null ::
        (fetchPaginated "users" 25000 [] (.str "n") []).requests := by
  constructor
  · exact (((fetch_loop_cursor_invariant "users" 25000 (by decide)).2.1
      { status := 200,
        data := .obj [("users", .arr []),
                      ("pagination", .obj [("token", .null), ("total", .num 0)])] }
      [{ status := 200, data := .str "never-consumed" }] (.str "t0") .null [] []
      rfl (by decide) (by decide) (by decide)).1 rfl)
  · exact (((fetch_loop_cursor_invariant "users" 25000 (by decide)).2.1
      { status := 200,
        data := .obj [("users", .arr []),
                      ("pagination", .obj [("token", .str "n"), ("total", .num 0)])] }
      [] .null (.str "n") [] []
      rfl (by decide) (by decide) (by decide)).2 (by decide)).1

/-! ## Claim C4: accumulated count vs `pagination.total` -/

/-- **C4 counterexample.** A completed fetch's item count does not have to
equal the final response's declared `pagination.total`: a single page with
an empty `users` array, a null cursor and `total: 5` completes the fetch
with 0 items while declaring 5.  The code never compares the two. -/
theorem getUsers_completed_count_ne_declared_total :
    getUsers [{ status := 200,
                data := .obj [("users", .arr []),
                              ("pagination",
                               .obj [("token", .null), ("total", .num 5)])] }] =
      { requests := [{ limit := 25000, token := none }], outcome := .done [] } ∧
    declaredTotal { status := 200,
                    data := .obj [("users", .arr []),
                                  ("pagination",
                                   .obj [("token", .null), ("total", .num 5)])] } =
      some (.num 5) ∧
    ([] : List JsValue).length ≠ 5 := by
  decide

theorem setTotalInPagination_as_set (n : Int) (pf : List (String × JsValue)) :
    setTotalInPagination n (.obj pf) =
      .obj (pf.map (fun q => if q.1 = "total" then (q.1, (fun _ => JsValue.num n) q.2) else q)) :=
  rfl

theorem setTotalInData_truthyObject (n : Int) (v : JsValue) :
    (setTotalInData n v).truthyObject = v.truthyObject := by
  cases v <;> rfl

theorem setTotalInData_getField_ne (n : Int) (v : JsValue) (k : String)
    (hk : k ≠ "pagination") :
    (setTotalInData n v).getField k = v.getField k := by
  cases v with
  | obj fields => exact getField_set_ne fields "pagination" k (setTotalInPagination n) hk
  | null => rfl
  | bool b => rfl
  | num m => rfl
  | str s => rfl
  | arr es => rfl

theorem setTotalInData_paginationCursor (n : Int) (v : JsValue) :
    paginationCursor (setTotalInData n v) = paginationCursor v := by
  cases v with
  | null => rfl
  | bool b => rfl
  | num m => rfl
  | str s => rfl
  | arr es => rfl
  | obj fields =>
    unfold paginationCursor
    rw [show setTotalInData n (JsValue.obj fields) =
      JsValue.obj (fields.map (fun p =>
        if p.1 = "pagination" then (p.1, setTotalInPagination n p.2) else p)) from rfl]
    rw [getField_set_eq fields "pagination" (setTotalInPagination n)]
    cases hp : (JsValue.obj fields).getField "pagination" with
    | none => rfl
    | some p =>
      rw [Option.map_some']
      cases p with
      | null => rfl
      | bool b => rfl
      | num m => rfl
      | str s => rfl
      | arr es => rfl
      | obj pf =>
        rw [setTotalInPagination_as_set]
        have htok := getField_set_ne pf "total" "token" (fun _ => JsValue.num n) (by decide)
        have htot := getField_set_eq pf "total" (fun _ => JsValue.num n)
        simp only [JsValue.hasField, htok, htot, JsValue.typeofObject, JsValue.truthy]
        have hiso : (Option.map (fun _ => JsValue.num n)
            ((JsValue.obj pf).getField "total")).isSome =
            ((JsValue.obj pf).getField "total").isSome := by
          cases (JsValue.obj pf).getField "total" <;> rfl
        simp only [hiso]

theorem setDeclaredTotal_spec (r : HttpResp) (n : Int) :
    (setDeclaredTotal n r).status = r.status ∧
    (setDeclaredTotal n r).data.truthyObject = r.data.truthyObject ∧
    (∀ k, k ≠ "pagination" → (setDeclaredTotal n r).data.getField k = r.data.getField k) ∧
    paginationCursor (setDeclaredTotal n r).data = paginationCursor r.data :=
  ⟨rfl,
   setTotalInData_truthyObject n r.data,
   fun k hk => setTotalInData_getField_ne n r.data k hk,
   setTotalInData_paginationCursor n r.data⟩

/-- **C4 amended.** A completed paginated fetch returns exactly the items
accumulated from its pages; the declared `pagination.total` is only ever
checked for *presence*, never for its value, so the entire run — requests,
outcome and returned items — is unchanged when every response's declared
total is overwritten by an arbitrary number.  Equality of the accumulated
count with the declared total therefore holds only when the server happens
to declare it truthfully, as in the honest run in the witness. -/
theorem fetch_ignores_declared_total (field : String) (limit : Nat)
    (hfield : field ≠ "pagination") :
    ∀ (resps : List HttpResp) (n : Int) (cursor : JsValue) (acc : List JsValue),
      fetchPaginated field limit (resps.map (setDeclaredTotal n)) cursor acc =
        fetchPaginated field limit resps cursor acc := by
  intro resps
  induction resps with
  | nil => intro n cursor acc; rfl
  | cons r rest ih =>
    intro n cursor acc
    obtain ⟨hst, htr, hgf, hpag⟩ := setDeclaredTotal_spec r n
    rw [List.map_cons]
    by_cases hs : r.status = 200
    · have hs2 : (setDeclaredTotal n r).status = 200 := by rw [hst]; exact hs
      by_cases ht : r.data.truthyObject = true
      · have ht2 : (setDeclaredTotal n r).data.truthyObject = true := by rw [htr]; exact ht
        cases hv : r.data.getField field with
        | some v =>
          cases v with
          | arr items =>
            have hv2 : (setDeclaredTotal n r).data.getField field = some (.arr items) := by
              rw [hgf field hfield]; exact hv
            cases hp : paginationCursor r.data with
            | none =>
              rw [fetchStep_badPagination field limit _ _ cursor acc items hs2 ht2 hv2
                (by rw [hpag]; exact hp)]
              rw [fetchStep_badPagination field limit r rest cursor acc items hs ht hv hp]
            | some tok =>
              by_cases hnull : tok = .null
              · subst hnull
                rw [fetchStep_page_done field limit _ _ cursor acc items hs2 ht2 hv2
                  (by rw [hpag]; exact hp)]
                rw [fetchStep_page_done field limit r rest cursor acc items hs ht hv hp]
              · rw [fetchStep_page_continue field limit _ _ cursor tok acc items hs2 ht2 hv2
                  (by rw [hpag]; exact hp) hnull]
                rw [fetchStep_page_continue field limit r rest cursor tok acc items hs ht hv
                  hp hnull]
                rw [ih n tok (acc ++ items)]
          | null =>
            have ha : isArrayOpt (r.data.getField field) = false := by rw [hv]; rfl
            have ha2 : isArrayOpt ((setDeclaredTotal n r).data.getField field) = false := by
              rw [hgf field hfield]; exact ha
            rw [fetchStep_missingItems field limit _ _ cursor acc hs2 ht2 ha2]
            rw [fetchStep_missingItems field limit r rest cursor acc hs ht ha]
          | bool b =>
            have ha : isArrayOpt (r.data.getField field) = false := by rw [hv]; rfl
            have ha2 : isArrayOpt ((setDeclaredTotal n r).data.getField field) = false := by
              rw [hgf field hfield]; exact ha
            rw [fetchStep_missingItems field limit _ _ cursor acc hs2 ht2 ha2]
            rw [fetchStep_missingItems field limit r rest cursor acc hs ht ha]
          | num m =>
            have ha : isArrayOpt (r.data.getField field) = false := by rw [hv]; rfl
            have ha2 : isArrayOpt ((setDeclaredTotal n r).data.getField field) = false := by
              rw [hgf field hfield]; exact ha
            rw [fetchStep_missingItems field limit _ _ cursor acc hs2 ht2 ha2]
            rw [fetchStep_missingItems field limit r rest cursor acc hs ht ha]
          | str s =>
            have ha : isArrayOpt (r.data.getField field) = false := by rw [hv]; rfl
            have ha2 : isArrayOpt ((setDeclaredTotal n r).data.getField field) = false := by
              rw [hgf field hfield]; exact ha
            rw [fetchStep_missingItems field limit _ _ cursor acc hs2 ht2 ha2]
            rw [fetchStep_missingItems field limit r rest cursor acc hs ht ha]
          | obj fs =>
            have ha : isArrayOpt (r.data.getField field) = false := by rw [hv]; rfl
            have ha2 : isArrayOpt ((setDeclaredTotal n r).data.getField field) = false := by
              rw [hgf field hfield]; exact ha
            rw [fetchStep_missingItems field limit _ _ cursor acc hs2 ht2 ha2]
            rw [fetchStep_missingItems field limit r rest cursor acc hs ht ha]
        | none =>
          have ha : isArrayOpt (r.data.getField field) = false := by rw [hv]; rfl
          have ha2 : isArrayOpt ((setDeclaredTotal n r).data.getField field) = false := by
            rw [hgf field hfield]; exact ha
          rw [fetchStep_missingItems field limit _ _ cursor acc hs2 ht2 ha2]
          rw [fetchStep_missingItems field limit r rest cursor acc hs ht ha]
      · have htf : r.data.truthyObject = false := by simpa using ht
        have htf2 : (setDeclaredTotal n r).data.truthyObject = false := by rw [htr]; exact htf
        by_cases hc : cursor = .null
        · subst hc
          rw [fetchStep_skip_done field limit _ _ acc hs2 htf2]
          rw [fetchStep_skip_done field limit r rest acc hs htf]
        · rw [fetchStep_skip_continue field limit _ _ cursor acc hs2 htf2 hc]
          rw [fetchStep_skip_continue field limit r rest cursor acc hs htf hc]
          rw [ih n cursor acc]
    · rw [fetchStep_http field limit _ _ cursor acc (by rw [hst]; exact hs)]
      rw [fetchStep_http field limit r rest cursor acc hs]

/-- Witness for C4's amended theorem: overwriting the declared total of an
honest single-page run (2 users, total 2) with 999 leaves the whole fetch
result unchanged; and in the honest run the accumulated count does equal
the declared total. -/
theorem fetch_ignores_declared_total_witness :
    fetchPaginated "users" 25000
        ([{ status := 200,
            data := .obj [("users", .arr [.obj [("status", .str "active")],
                                          .obj [("status", .str "deleted")]]),
                          ("pagination", .obj [("token", .null), ("total", .num 2)])] }].map
          (setDeclaredTotal 999)) .null [] =
      fetchPaginated "users" 25000
        [{ status := 200,
           data := .obj [("users", .arr [.obj [("status", .str "active")],
                                         .obj [("status", .str "deleted")]]),
                         ("pagination", .obj [("token", .null), ("total", .num 2)])] }]
        .null [] :=
  fetch_ignores_declared_total "users" 25000 (by decide)
    [{ status := 200,
       data := .obj [("users", .arr [.obj [("status", .str "active")],
                                     .obj [("status", .str "deleted")]]),
                     ("pagination", .obj [("token", .null), ("total", .num 2)])] }]
    999 .null []

/-! ## Claim C6: thread-participant set semantics -/

theorem mem_setAdd {s : List JsValue} {x a : JsValue} :
    a ∈ setAdd s x ↔ a ∈ s ∨ a = x := by
  unfold setAdd
  split
  · rename_i hx
    constructor
    · exact Or.inl
    · rintro (h | rfl)
      · exact h
      · exact hx
  · simp

theorem nodup_setAdd {s : List JsValue} (h : s.Nodup) (x : JsValue) :
    (setAdd s x).Nodup := by
  unfold setAdd
  split
  · exact h
  · rename_i hx
    simp [List.nodup_append, h, hx]

theorem mem_foldl_setAdd (xs : List JsValue) :
    ∀ (s : List JsValue) (a : JsValue), a ∈ xs.foldl setAdd s ↔ a ∈ s ∨ a ∈ xs := by
  induction xs with
  | nil => intro s a; simp
  | cons x xs ih =>
    intro s a
    rw [List.foldl_cons, ih (setAdd s x) a, mem_setAdd]
    simp [or_assoc]

theorem nodup_foldl_setAdd (xs : List JsValue) :
    ∀ (s : List JsValue), s.Nodup → (xs.foldl setAdd s).Nodup := by
  induction xs with
  | nil => intro s h; exact h
  | cons x xs ih =>
    intro s h
    exact ih (setAdd s x) (nodup_setAdd h x)

theorem length_foldl_setAdd_eq_dedup (xs : List JsValue) :
    (xs.foldl setAdd []).length = xs.dedup.length := by
  have hnd : (xs.foldl setAdd []).Nodup := nodup_foldl_setAdd xs [] List.nodup_nil
  have hfin : (xs.foldl setAdd []).toFinset = xs.toFinset := by
    ext a
    simp [List.mem_toFinset, mem_foldl_setAdd]
  calc (xs.foldl setAdd []).length
      = (xs.foldl setAdd []).toFinset.card := (List.toFinset_card_of_nodup hnd).symm
    _ = xs.toFinset.card := by rw [hfin]
    _ = xs.dedup.length := List.card_toFinset xs

theorem foldl_participantStep (ps : List JsValue) :
    ∀ s : List JsValue, ps.foldl participantStep s =
      (ps.filterMap (fun p => if p.truthyObject then p.getField "userID" else none)).foldl
        setAdd s := by
  induction ps with
  | nil => intro s; rfl
  | cons p ps ih =>
    intro s
    rw [List.foldl_cons, ih]
    by_cases hp : p.truthyObject = true
    · cases hu : p.getField "userID" with
      | none => simp [participantStep, hp, hu, List.filterMap_cons]
      | some uid => simp [participantStep, hp, hu, List.filterMap_cons]
    · have hp2 : p.truthyObject = false := by simpa using hp
      simp [participantStep, hp2, List.filterMap_cons]

theorem threadStep_participants (acc : ThreadAcc) (t : JsValue) :
    (threadStep acc t).participants = (extractUserIDs t).foldl setAdd acc.participants := by
  rw [threadStep, extractUserIDs]
  by_cases ht : t.truthyObject = true
  · rw [if_pos ht, if_pos ht]
    repeat' split
    all_goals simp_all [foldl_participantStep]
  · have ht2 : t.truthyObject = false := by simpa using ht
    rw [if_neg (by rw [ht2]; exact Bool.false_ne_true),
        if_neg (by rw [ht2]; exact Bool.false_ne_true)]
    rfl

theorem foldl_threadStep_participants (threads : List JsValue) :
    ∀ acc : ThreadAcc, (threads.foldl threadStep acc).participants =
      (allUserIDs threads).foldl setAdd acc.participants := by
  induction threads with
  | nil => intro acc; rfl
  | cons t ts ih =>
    intro acc
    rw [List.foldl_cons, ih (threadStep acc t), threadStep_participants]
    rw [allUserIDs, allUserIDs, List.flatMap_cons, List.foldl_append]

/-- **C6.** The "Total Thread Participants Count" metric is the number of
*distinct* `userID` values found in participants entries across all threads
(the running `Set` gives set semantics), so duplicates across different
threads count once: in particular two threads both containing participant
"u1" yield 1, not 2. -/
theorem participants_metric_is_distinct_count :
    (∀ users groups threads messages : List JsValue,
      rowValue (computeRow users groups threads messages)
          "Total Thread Participants Count" =
        some (((allUserIDs threads).dedup.length : Int))) ∧
    rowValue (computeRow [] []
        [.obj [("participants", .arr [.obj [("userID", .str "u1")]])],
         .obj [("participants", .arr [.obj [("userID", .str "u1")]])]] [])
      "Total Thread Participants Count" = some 1 := by
  constructor
  · intro users groups threads messages
    have h0 : rowValue (computeRow users groups threads messages)
        "Total Thread Participants Count" =
        some (((threads.foldl threadStep ⟨0, 0, 0, 0, 0, []⟩).participants.length : Int)) :=
      rfl
    rw [h0, foldl_threadStep_participants threads ⟨0, 0, 0, 0, 0, []⟩]
    norm_num [length_foldl_setAdd_eq_dedup]
  · decide

/-! ## Claim C7: tolerance of missing / wrong-typed optional fields -/

/-- **C7 counterexample.** The claim extends the zero-contribution policy
to "all other optional numeric, boolean, and array fields", but the boolean
fields `resolved` and `connectToSlack` are tested with JS truthiness, not a
type check: a thread whose `resolved` is the (wrong-typed, truthy) string
`"yes"` contributes 1 to "Total Resolved Thread Count", not 0. -/
theorem wrongTyped_resolved_counts_one :
    rowValue (computeRow [] [] [.obj [("resolved", .str "yes")]] [])
        "Total Resolved Thread Count" = some 1 ∧
    rowValue (computeRow [] [] [] []) "Total Resolved Thread Count" = some 0 := by
  decide

/-- **C7 amended.**  Missing or wrong-typed *numeric* fields (`total`,
`actionMessages`, `userMessages`, `deletedMessages`), *array* fields
(`participants`, `reactions`, `attachments`, `content`) and *string-equal*
tested fields (`status`) contribute zero to their metrics, and the
aggregation itself is a total function so it never fails; but the
truthiness-tested fields `resolved` and `connectToSlack` contribute 1 for
*any* truthy value regardless of its type, and 0 exactly when the value is
missing or falsy.  The spec's concrete example holds: `total:
"not-a-number"` contributes 0 to "Total Message Count". -/
theorem aggregator_field_tolerance :
    (∀ (acc : ThreadAcc) (t : JsValue), isNumberOpt (t.getField "total") = false →
      (threadStep acc t).messageTotal = acc.messageTotal) ∧
    (∀ (acc : ThreadAcc) (t : JsValue), isNumberOpt (t.getField "actionMessages") = false →
      (threadStep acc t).actionMessagesTotal = acc.actionMessagesTotal) ∧
    (∀ (acc : ThreadAcc) (t : JsValue), isNumberOpt (t.getField "userMessages") = false →
      (threadStep acc t).userMessagesTotal = acc.userMessagesTotal) ∧
    (∀ (acc : ThreadAcc) (t : JsValue), isNumberOpt (t.getField "deletedMessages") = false →
      (threadStep acc t).deletedMessagesTotal = acc.deletedMessagesTotal) ∧
    (∀ (acc : ThreadAcc) (t : JsValue), isArrayOpt (t.getField "participants") = false →
      (threadStep acc t).participants = acc.participants) ∧
    (∀ (acc : UserAcc) (u : JsValue), ¬ u.getField "status" = some (.str "active") →
      (userStep acc u).active = acc.active) ∧
    (∀ (acc : UserAcc) (u : JsValue), ¬ u.getField "status" = some (.str "deleted") →
      (userStep acc u).deleted = acc.deleted) ∧
    (∀ (acc : GroupAcc) (g : JsValue), ¬ g.getField "status" = some (.str "active") →
      (groupStep acc g).active = acc.active) ∧
    (∀ (acc : GroupAcc) (g : JsValue), ¬ g.getField "status" = some (.str "deleted") →
      (groupStep acc g).deleted = acc.deleted) ∧
    (∀ (acc : MessageAcc) (m : JsValue), isArrayOpt (m.getField "reactions") = false →
      (messageStep acc m).reactions = acc.reactions) ∧
    (∀ (acc : MessageAcc) (m : JsValue), isArrayOpt (m.getField "attachments") = false →
      (messageStep acc m).attachments = acc.attachments) ∧
    (∀ (acc : MessageAcc) (m : JsValue), isArrayOpt (m.getField "content") = false →
      (messageStep acc m).mentions = acc.mentions) ∧
    (∀ (acc : ThreadAcc) (t : JsValue), truthyOpt (t.getField "resolved") = false →
      (threadStep acc t).resolvedCount = acc.resolvedCount) ∧
    (∀ (acc : ThreadAcc) (t : JsValue), t.truthyObject = true →
      truthyOpt (t.getField "resolved") = true →
      (threadStep acc t).resolvedCount = acc.resolvedCount + 1) ∧
    (∀ (acc : GroupAcc) (g : JsValue), truthyOpt (g.getField "connectToSlack") = false →
      (groupStep acc g).slackConnected = acc.slackConnected) ∧
    (∀ (acc : GroupAcc) (g : JsValue), g.truthyObject = true →
      truthyOpt (g.getField "connectToSlack") = true →
      (groupStep acc g).slackConnected = acc.slackConnected + 1) ∧
    rowValue (computeRow [] [] [.obj [("total", .str "not-a-number")]] [])
        "Total Message Count" = some 0 := by
  refine ⟨?_, ?_, ?_, ?_, ?_, ?_, ?_, ?_, ?_, ?_, ?_, ?_, ?_, ?_, ?_, ?_, by decide⟩
  all_goals intro acc v h
  all_goals simp only [threadStep, userStep, groupStep, messageStep]
  all_goals repeat' split
  all_goals first
    | rfl
    | simp_all [isNumberOpt, isArrayOpt, truthyOpt]

/-- Witness for C7's amended theorem: a wrong-typed `total` leaves "Total
Message Count" untouched, and a wrong-typed but truthy `resolved` adds 1. -/
theorem aggregator_field_tolerance_witness :
    (threadStep ⟨0, 0, 0, 0, 0, []⟩ (.obj [("total", .str "not-a-number")])).messageTotal =
      (⟨0, 0, 0, 0, 0, []⟩ : ThreadAcc).messageTotal ∧
    (threadStep ⟨0, 0, 0, 0, 0, []⟩ (.obj [("resolved", .str "yes")])).resolvedCount =
      (⟨0, 0, 0, 0, 0, []⟩ : ThreadAcc).resolvedCount + 1 :=
  ⟨aggregator_field_tolerance.1 ⟨0, 0, 0, 0, 0, []⟩
      (.obj [("total", .str "not-a-number")]) (by decide),
   aggregator_field_tolerance.2.2.2.2.2.2.2.2.2.2.2.2.2.1 ⟨0, 0, 0, 0, 0, []⟩
      (.obj [("resolved", .str "yes")]) (by decide) (by decide)⟩

/-! ## Claim C8: output column order and shape -/

theorem rowCellsLoop_eq_map (row : List (String × Int)) (ks : List String) :
    ∀ acc : List String, rowCellsLoop row ks acc = acc ++ ks.map (cellOf row) := by
  induction ks with
  | nil => intro acc; simp [rowCellsLoop]
  | cons k ks ih =>
    intro acc
    rw [rowCellsLoop, ih]
    simp

theorem outputLinesLoop_eq_map (keys : List String)
    (es : List (String × String × List (String × Int))) :
    ∀ out : List String, outputLinesLoop keys es out =
      out ++ es.map (fun e =>
        String.intercalate "," (e.1 :: e.2.1 :: keys.map (cellOf e.2.2))) := by
  induction es with
  | nil => intro out; simp [outputLinesLoop]
  | cons e es ih =>
    intro out
    rw [outputLinesLoop, ih, rowCellsLoop_eq_map]
    simp

/-- **C8.** The rendered table: the header line is `ID,Name,` followed by
the key-insertion order of the *first* application's row; every data line
renders its values in exactly that key order (whatever order its own keys
are in); data lines appear in application-processing order; and when `main`
reaches a successful write, the string written is this rendering, which
ends with a trailing newline. -/
theorem output_column_order_spec (first : String × String × List (String × Int))
    (rest : List (String × String × List (String × Int))) :
    outputLinesLoop (rowKeys first.2.2) (first :: rest)
        [String.intercalate "," ("ID" :: "Name" :: rowKeys first.2.2)] =
      String.intercalate "," ("ID" :: "Name" :: rowKeys first.2.2) ::
        (first :: rest).map (fun e =>
          String.intercalate "," (e.1 :: e.2.1 :: (rowKeys first.2.2).map (cellOf e.2.2))) ∧
    (renderOutput (rowKeys first.2.2) (first :: rest)).data.getLast? = some '\n' ∧
    (∀ env : MainEnv, ∀ apps : List JsValue,
      listApplications env.appsResp = .ok (.arr apps) →
      processApps env.script apps [] = some (.ok (first :: rest)) →
      env.writeOk = true →
      mainRun env = some (.exited 0 (some (renderOutput (rowKeys first.2.2) (first :: rest))))) := by
  refine ⟨?_, ?_, ?_⟩
  · rw [outputLinesLoop_eq_map]
    rfl
  · rw [renderOutput, String.data_append]
    rw [show ("\n" : String).data = ['\n'] from rfl]
    rw [List.getLast?_concat]
  · intro env apps hlist hproc hw
    simp only [mainRun, hlist, hproc, hw, if_true]

/-- Witness for C8's run-linking component at a concrete one-application
environment whose write succeeds. -/
theorem output_column_order_spec_witness :
    mainRun
        { appsResp := .ok { status := 200,
                            data := .arr [.obj [("id", .str "app-1"),
                                                ("secret", .str "s"),
                                                ("name", .str "App One")]] },
          script := fun _ =>
            { userResps := [{ status := 200,
                              data := .obj [("users", .arr []),
                                            ("pagination",
                                             .obj [("token", .null), ("total", .num 0)])] }],
              groupResp := { status := 200, data := .arr [] },
              threadResps := [{ status := 200,
                                data := .obj [("threads", .arr []),
                                              ("pagination",
                                               .obj [("token", .null), ("total", .num 0)])] }],
              messageResps := [{ status := 200,
                                 data := .obj [("messages", .arr []),
                                               ("pagination",
                                                .obj [("token", .null), ("total", .num 0)])] }] },
          writeOk := true } =
      some (.exited 0 (some (renderOutput
        (rowKeys (computeRow [] [] [] []))
        [("app-1", "App One", computeRow [] [] [] [])]))) :=
  (output_column_order_spec ("app-1", "App One", computeRow [] [] [] []) []).2.2
    _ [.obj [("id", .str "app-1"), ("secret", .str "s"), ("name", .str "App One")]]
    rfl rfl rfl

/-! ## Claim C9: exit codes -/

/-- **C9.** A failing output write is caught and only logged — `main` still
runs to completion, so the process exits 0 with nothing written — while the
other fatal conditions end the process with code 1: a failed applications
request, an applications body that is not an array, a failing application
entry (malformed entry, invalid application record, or any resource fetch
failure surfacing through `generateApplicationAnalytics`), and missing
configuration before `main` even starts. -/
theorem exit_code_policy :
    (∀ (env : MainEnv) (apps : List JsValue)
        (first : String × String × List (String × Int))
        (rest : List (String × String × List (String × Int))),
      listApplications env.appsResp = .ok (.arr apps) →
      processApps env.script apps [] = some (.ok (first :: rest)) →
      env.writeOk = false →
      mainRun env = some (.exited 0 none)) ∧
    (∀ env : MainEnv, listApplications env.appsResp = .error () →
      mainRun env = some (.exited 1 none)) ∧
    (∀ (env : MainEnv) (v : JsValue), listApplications env.appsResp = .ok v →
      v.isArr = false → mainRun env = some (.exited 1 none)) ∧
    (∀ (env : MainEnv) (apps : List JsValue),
      listApplications env.appsResp = .ok (.arr apps) →
      processApps env.script apps [] = some (.error ()) →
      mainRun env = some (.exited 1 none)) ∧
    (∀ b1 b2 b3 : Bool, (b1 = false ∨ b2 = false ∨ b3 = false) →
      configCheck b1 b2 b3 = some 1) := by
  refine ⟨?_, ?_, ?_, ?_, ?_⟩
  · intro env apps first rest hlist hproc hw
    simp only [mainRun, hlist, hproc, hw, Bool.false_eq_true, if_false]
  · intro env hlist
    simp only [mainRun, hlist]
  · intro env v hlist hvarr
    simp only [mainRun, hlist]
    cases v with
    | arr l => simp [JsValue.isArr] at hvarr
    | null => rfl
    | bool b => rfl
    | num n => rfl
    | str s => rfl
    | obj fs => rfl
  · intro env apps hlist hproc
    simp only [mainRun, hlist, hproc]
  · intro b1 b2 b3 h
    rcases h with h | h | h <;> simp [configCheck, h]

/-- Witness for C9 at concrete environments: a run that is healthy except
for the failing write exits 0 with nothing written; a failed applications
request exits 1; missing `CUSTOMER_ID` ends with code 1. -/
theorem exit_code_policy_witness :
    mainRun
        { appsResp := .ok { status := 200,
                            data := .arr [.obj [("id", .str "app-1"),
                                                ("secret", .str "s"),
                                                ("name", .str "App One")]] },
          script := fun _ =>
            { userResps := [{ status := 200,
                              data := .obj [("users", .arr []),
                                            ("pagination",
                                             .obj [("token", .null), ("total", .num 0)])] }],
              groupResp := { status := 200, data := .arr [] },
              threadResps := [{ status := 200,
                                data := .obj [("threads", .arr []),
                                              ("pagination",
                                               .obj [("token", .null), ("total", .num 0)])] }],
              messageResps := [{ status := 200,
                                 data := .obj [("messages", .arr []),
                                               ("pagination",
                                                .obj [("token", .null), ("total", .num 0)])] }] },
          writeOk := false } =
      some (.exited 0 none) ∧
    mainRun
        { appsResp := .error (),
          script := fun _ =>
            { userResps := [], groupResp := { status := 200, data := .arr [] },
              threadResps := [], messageResps := [] },
          writeOk := true } =
      some (.exited 1 none) ∧
    configCheck false true true = some 1 :=
  ⟨exit_code_policy.1 _
      [.obj [("id", .str "app-1"), ("secret", .str "s"), ("name", .str "App One")]]
      ("app-1", "App One", computeRow [] [] [] []) [] rfl rfl rfl,
   exit_code_policy.2.1 _ rfl,
   exit_code_policy.2.2.2.2 false true true (Or.inl rfl)⟩

/-! ## Claim C10: empty result list crashes before writing -/

theorem processApps_all_denylisted (script : JsValue → AppScript) :
    ∀ (apps : List JsValue) (acc : List (String × String × List (String × Int))),
      (∀ a ∈ apps, a.truthyObject = true ∧ denylisted a = true) →
      processApps script apps acc = some (.ok acc) := by
  intro apps
  induction apps with
  | nil => intro acc _; rfl
  | cons a rest ih =>
    intro acc h
    obtain ⟨hta, hda⟩ := h a (List.mem_cons_self a rest)
    rw [processApps, if_pos hta, if_pos hda]
    exact ih acc (fun b hb => h b (List.mem_cons_of_mem a hb))

/-- **C10.** When the fetched application list is an array that produces no
result rows — it is empty, or every entry matches the two-entry denylist —
`main` still evaluates `Object.keys(applicationData[0][2])`:
`applicationData[0]` is `undefined` and indexing it throws an uncaught
`TypeError`, crashing the run before anything is written (no header-only or
empty CSV is ever produced). -/
theorem empty_result_list_crashes :
    (∀ (env : MainEnv) (apps : List JsValue),
      listApplications env.appsResp = .ok (.arr apps) →
      processApps env.script apps [] = some (.ok []) →
      mainRun env = some .crashedTypeError) ∧
    (∀ (script : JsValue → AppScript) (apps : List JsValue),
      (∀ a ∈ apps, a.truthyObject = true ∧ denylisted a = true) →
      processApps script apps [] = some (.ok [])) := by
  constructor
  · intro env apps hlist hproc
    simp only [mainRun, hlist, hproc]
  · intro script apps h
    exact processApps_all_denylisted script apps [] h

/-- Witness for C10: an empty application array crashes with the runtime
type error, and so does a list whose only entry is the first denylisted
application ID. -/
theorem empty_result_list_crashes_witness :
    mainRun
        { appsResp := .ok { status := 200, data := .arr [] },
          script := fun _ =>
            { userResps := [], groupResp := { status := 200, data := .arr [] },
              threadResps := [], messageResps := [] },
          writeOk := true } =
      some .crashedTypeError ∧
    mainRun
        { appsResp := .ok { status := 200,
                            data := .arr [.obj [("id",
                              .str "923ecd44-198f-49a2-a4f5-96f69c3d148b")]] },
          script := fun _ =>
            { userResps := [], groupResp := { status := 200, data := .arr [] },
              threadResps := [], messageResps := [] },
          writeOk := true } =
      some .crashedTypeError :=
  ⟨empty_result_list_crashes.1 _ [] rfl rfl,
   empty_result_list_crashes.1 _
      [.obj [("id", .str "923ecd44-198f-49a2-a4f5-96f69c3d148b")]] rfl
      (empty_result_list_crashes.2 _
        [.obj [("id", .str "923ecd44-198f-49a2-a4f5-96f69c3d148b")]] (by decide))⟩
